import Mathlib

/-!
Shallow embedding of the core webhook / publish pipeline of the
`events-handler` repository: Slack signature verification, Slack/email
webhook payload dispatch, Gmail reply-content extraction with org-id
thread backfill, Gmail push-notification processing, and the Pub/Sub
topic-provisioning / publish service.

Conventions of the embedding:
* Python strings are Lean `String`s; request bytes are modelled as the
  already UTF-8 decoded string.
* Python `None`-able values are `Option`; Python truthiness on strings
  (`if not s`) is `pyTruthy? : Option String → Bool` (absent and `""`
  are both falsy).
* Raised exceptions are `Except` values; a `try/except` that returns a
  default becomes a `match` on the `Except`.
* `float(...)` on a header string is modelled by a decimal parser into
  `ℚ` that fails (raises) on non-numeric input.
* HMAC-SHA256 is kept abstract: handlers are parameterised by a hex-digest
  function `hmacHex : String → String → String` (key, message); none of
  the verified control flow depends on the digest's value.
-/

namespace EventsHandler

/-- Python truthiness of an optional string: `None` and `""` are falsy. -/
def pyTruthy? (o : Option String) : Bool :=
  match o with
  | none => false
  | some s => s ≠ ""

/-- Python `str.strip()` (whitespace on both ends), computed on the
character list so that concrete inputs evaluate in the kernel. -/
def pyStrip (s : String) : String :=
  ⟨((s.toList.dropWhile Char.isWhitespace).reverse.dropWhile
      Char.isWhitespace).reverse⟩

/-- Digit list to number; fails on a non-digit or on the empty list. -/
def digitsToNat? (l : List Char) : Option Nat :=
  match l with
  | [] => none
  | _ =>
    l.foldl
      (fun acc c =>
        match acc with
        | none => none
        | some n => if c.isDigit then some (n * 10 + (c.toNat - 48)) else none)
      (some 0)

/-- Digit list to number treating the empty list as `0` (used for the part
of a decimal literal that may be empty, as in `"1."` or `".5"`). -/
def digitsToNatZ? (l : List Char) : Option Nat :=
  match l with
  | [] => some 0
  | _ => digitsToNat? l

/-- Models Python `float(s)` on ordinary decimal literals: surrounding
whitespace allowed, optional sign, then digits with at most one `.`;
raises (`none`) on anything else, e.g. a non-numeric header value. -/
def parseDecimal? (s : String) : Option ℚ :=
  let cs := ((s.toList.dropWhile Char.isWhitespace).reverse.dropWhile
      Char.isWhitespace).reverse
  let (neg, ds) : Bool × List Char :=
    match cs with
    | '-' :: r => (true, r)
    | '+' :: r => (false, r)
    | r => (false, r)
  let val? : Option ℚ :=
    match ds.span (· ≠ '.') with
    | (ip, []) => (digitsToNat? ip).map fun n => (n : ℚ)
    | (ip, _dot :: fp) =>
      if fp.contains '.' then none
      else if ip.isEmpty && fp.isEmpty then none
      else
        match digitsToNatZ? ip, digitsToNatZ? fp with
        | some n, some f => some ((n : ℚ) + (f : ℚ) / ((10 : ℚ) ^ fp.length))
        | _, _ => none
  val?.map fun q => if neg then -q else q

/-- `verify_slack_signature` try-block (slack_webhook.py lines 58-80);
`Except.error` is a raised exception (non-numeric timestamp makes
`float(timestamp)` raise `ValueError`). -/
def verify_slack_signature_try (hmacHex : String → String → String) (now : ℚ)
    (timestamp? signature? : Option String) (body secret : String) :
    Except Unit Bool :=
  -- `if not timestamp or not signature: return False`
  if !pyTruthy? timestamp? || !pyTruthy? signature? then .ok false
  else
    let ts := timestamp?.getD ""
    let sig := signature?.getD ""
    match parseDecimal? ts with
    | none => .error ()
    | some t =>
      -- `if abs(time.time() - float(timestamp)) > 60 * 5: return False`
      if |now - t| > 60 * 5 then .ok false
      else
        let sigBase := "v0:" ++ ts ++ ":" ++ body
        let mySig := "v0=" ++ hmacHex secret sigBase
        .ok (mySig = sig)

/-- `verify_slack_signature`: the surrounding `except Exception` returns
`False` on any raise inside the try-block. -/
def verify_slack_signature (hmacHex : String → String → String) (now : ℚ)
    (timestamp? signature? : Option String) (body secret : String) : Bool :=
  match verify_slack_signature_try hmacHex now timestamp? signature? body secret with
  | .ok b => b
  | .error _ => false

/-! ### Webhook payload dispatch (slack_webhook.py / email_webhook.py) -/

/-- Raw Slack event object as found in the JSON payload (`payload_data["event"]`).
All keys may be absent; `subtype` may be present in the raw JSON. -/
structure SlackRawEvent where
  type : Option String := none
  event_ts : Option String := none
  user : Option String := none
  channel : Option String := none
  text : Option String := none
  ts : Option String := none
  thread_ts : Option String := none
  bot_id : Option String := none
  app_id : Option String := none
  subtype : Option String := none
deriving DecidableEq

/-- `SlackEvent` (app/models/slack_webhook.py): the pydantic model declares
`type` required and no `subtype` field, so a raw `subtype` key is discarded
when the payload is parsed. -/
structure SlackEvent where
  type : String
  event_ts : Option String := none
  user : Option String := none
  channel : Option String := none
  text : Option String := none
  ts : Option String := none
  thread_ts : Option String := none
  bot_id : Option String := none
  app_id : Option String := none
deriving DecidableEq

/-- `SlackEventWrapper` (app/models/slack_webhook.py): required fields
`team_id`, `api_app_id`, `event`, `event_id`, `event_time`. -/
structure SlackEventWrapper where
  token : Option String := none
  team_id : String
  api_app_id : String
  event : SlackEvent
  type : String := "event_callback"
  event_id : String
  event_time : Int
deriving DecidableEq

/-- Decoded Slack webhook JSON body, with `.get`-style optional keys. -/
structure SlackRawPayload where
  ptype : Option String := none
  challenge : Option String := none
  token : Option String := none
  team_id : Option String := none
  api_app_id : Option String := none
  event : Option SlackRawEvent := none
  event_id : Option String := none
  event_time : Option Int := none
deriving DecidableEq

/-- Pydantic validation of the `event` object: `type` is required; the
undeclared `subtype` key is ignored (dropped). -/
def parseSlackEvent (r : SlackRawEvent) : Option SlackEvent :=
  r.type.map fun t =>
    { type := t, event_ts := r.event_ts, user := r.user, channel := r.channel,
      text := r.text, ts := r.ts, thread_ts := r.thread_ts,
      bot_id := r.bot_id, app_id := r.app_id }

/-- Pydantic validation `SlackEventWrapper(**payload_data)`: fails
(raises, caught into a 400) when a required field is missing. -/
def parseSlackWrapper (p : SlackRawPayload) : Option SlackEventWrapper :=
  match p.team_id, p.api_app_id, p.event, p.event_id, p.event_time with
  | some tid, some aid, some re, some eid, some et =>
    (parseSlackEvent re).map fun ev =>
      { token := p.token, team_id := tid, api_app_id := aid, event := ev,
        type := p.ptype.getD "event_callback", event_id := eid, event_time := et }
  | _, _, _, _, _ => none

/-- HTTP response produced by a webhook handler (success model or the
standardized error body of `_create_error_response`). -/
structure WebhookResponse where
  httpStatus : Nat
  status : Option String := none
  message : Option String := none
  challenge : Option String := none
  error_code : Option String := none
deriving DecidableEq

def okResponse (msg ch : Option String) : WebhookResponse :=
  { httpStatus := 200, status := some "ok", message := msg, challenge := ch }

def errorResponse (code : Nat) (ec : String) : WebhookResponse :=
  { httpStatus := code, error_code := some ec }

/-- Payload dispatch of `slack_webhook` (slack_webhook.py lines 139-209),
after signature verification and JSON decoding have succeeded. The second
component lists the event wrappers handed to
`publish_slack_event_background` via `background_tasks.add_task`. -/
def slack_webhook_handle (p : SlackRawPayload) :
    WebhookResponse × List SlackEventWrapper :=
  if p.ptype = some "url_verification" then
    if !pyTruthy? p.challenge then (errorResponse 400 "MISSING_CHALLENGE", [])
    else (okResponse (some "URL verification challenge") p.challenge, [])
  else if p.ptype = some "event_callback" then
    match parseSlackWrapper p with
    | none => (errorResponse 400 "INVALID_EVENT", [])
    | some w =>
      if pyTruthy? w.event.bot_id || pyTruthy? w.event.app_id then
        (okResponse (some "Bot event skipped") none, [])
      else if w.event.type ∉ (["message", "app_mention"] : List String) then
        (okResponse (some "Unsupported event skipped") none, [])
      -- `hasattr(event_wrapper.event, 'subtype')` is always False because
      -- SlackEvent declares no subtype field, so no subtype skip happens here
      else if !pyTruthy? w.event.text || pyStrip (w.event.text.getD "") = "" then
        (okResponse (some "Empty message skipped") none, [])
      else
        (okResponse (some "Slack event received and queued for processing") none,
          [w])
  else (okResponse (some "Unknown event type") none, [])

/-- Raw email event object from the JSON payload. -/
structure EmailRawEvent where
  type : Option String := none
  event_ts : Option String := none
  from_email : Option String := none
  to_email : Option String := none
  subject : Option String := none
  body : Option String := none
  thread_id : Option String := none
  message_id : Option String := none
  in_reply_to : Option String := none
  references : Option String := none
  org_id : Option String := none
deriving DecidableEq

/-- `EmailEvent` (app/models/email_webhook.py): only `type` is required. -/
structure EmailEvent where
  type : String
  event_ts : Option String := none
  from_email : Option String := none
  to_email : Option String := none
  subject : Option String := none
  body : Option String := none
  thread_id : Option String := none
  message_id : Option String := none
  in_reply_to : Option String := none
  references : Option String := none
  org_id : Option String := none
deriving DecidableEq

/-- `EmailEventWrapper` (app/models/email_webhook.py): required fields
`project_id`, `event`, `event_id`, `event_time`. -/
structure EmailEventWrapper where
  token : Option String := none
  project_id : String
  event : EmailEvent
  type : String := "email_callback"
  event_id : String
  event_time : Int
deriving DecidableEq

/-- Decoded email webhook JSON body. -/
structure EmailRawPayload where
  ptype : Option String := none
  token : Option String := none
  challenge : Option String := none
  project_id : Option String := none
  event : Option EmailRawEvent := none
  event_id : Option String := none
  event_time : Option Int := none
deriving DecidableEq

def parseEmailEvent (r : EmailRawEvent) : Option EmailEvent :=
  r.type.map fun t =>
    { type := t, event_ts := r.event_ts, from_email := r.from_email,
      to_email := r.to_email, subject := r.subject, body := r.body,
      thread_id := r.thread_id, message_id := r.message_id,
      in_reply_to := r.in_reply_to, references := r.references,
      org_id := r.org_id }

/-- Pydantic validation `EmailEventWrapper(**payload_data)`. -/
def parseEmailWrapper (p : EmailRawPayload) : Option EmailEventWrapper :=
  match p.project_id, p.event, p.event_id, p.event_time with
  | some pid, some re, some eid, some et =>
    (parseEmailEvent re).map fun ev =>
      { token := p.token, project_id := pid, event := ev,
        type := p.ptype.getD "email_callback", event_id := eid, event_time := et }
  | _, _, _, _ => none

/-- Payload dispatch of `email_webhook` (email_webhook.py lines 95-162).
`EmailChallenge(**payload_data)` requires both `token` and `challenge`
(any string values, including empty ones); a missing field raises and is
answered with 400 `INVALID_CHALLENGE`. -/
def email_webhook_handle (p : EmailRawPayload) :
    WebhookResponse × List EmailEventWrapper :=
  if p.ptype = some "url_verification" then
    match p.token, p.challenge with
    | some _, some ch => (okResponse none (some ch), [])
    | _, _ => (errorResponse 400 "INVALID_CHALLENGE", [])
  else if p.ptype = some "email_callback" then
    match parseEmailWrapper p with
    | none => (errorResponse 400 "INVALID_EVENT", [])
    | some w =>
      if w.event.type ≠ "email_reply" then
        (okResponse (some "Unsupported event skipped") none, [])
      else if !pyTruthy? w.event.body || pyStrip (w.event.body.getD "") = "" then
        (okResponse (some "Empty email message skipped") none, [])
      else
        (okResponse (some "Email event received and queued for processing") none,
          [w])
  else (okResponse (some "Unknown event type") none, [])

/-! ### Reply-content extraction (`extract_email_content`, email_webhook.py
lines 596-716).  Gmail message bodies are modelled with their base64url
transport decoding already applied (the `data` fields hold the decoded
text); Python `str.splitlines` is modelled on `'\n'` separators. -/

/-- Split a character list at every `'\n'`, keeping a trailing empty
segment (raw `split`, before the `splitlines` trailing-newline rule). -/
def splitOnNl : List Char → List (List Char)
  | [] => [[]]
  | '\n' :: rest => [] :: splitOnNl rest
  | c :: rest =>
    match splitOnNl rest with
    | s :: ss => (c :: s) :: ss
    | [] => [[c]]

/-- Python `str.splitlines()`: no segments for the empty string, and no
trailing empty segment after a final newline. -/
def pySplitlines (s : String) : List String :=
  match s.toList with
  | [] => []
  | cs =>
    let segs := splitOnNl cs
    let segs := if segs.getLast? = some [] then segs.dropLast else segs
    segs.map fun l => ⟨l⟩

/-- `"\n".join(lines)`. -/
def joinLines : List String → String
  | [] => ""
  | [l] => l
  | l :: rest => l ++ "\n" ++ joinLines rest

/-- Suffix test on character lists (kernel-evaluable `endswith`). -/
def listEndsWith (l suffix : List Char) : Bool :=
  suffix.reverse.isPrefixOf l.reverse

/-- `re.match(r"On\s.*(wrote|écrit):$", line_stripped, re.IGNORECASE)` on an
already-stripped line: `On`, one whitespace, anything, then `wrote:` or
`écrit:` at the end (ASCII case-folding). -/
def isReplyAttribution (line : String) : Bool :=
  let t := line.toList.map Char.toLower
  match t with
  | 'o' :: 'n' :: c :: rest =>
    c.isWhitespace && rest.length ≥ 6 &&
      (listEndsWith t "wrote:".toList || listEndsWith t "écrit:".toList)
  | _ => false

def forwardedMarker : String := "---------- Forwarded message ---------"

/-- A line at which the top-to-bottom scan cuts: reply attribution or the
literal forwarded-message marker, both checked on the stripped line. -/
def isMarkerLine (l : String) : Bool :=
  isReplyAttribution (pyStrip l) || pyStrip l = forwardedMarker

/-- `cut_off_index`: index of the first marker line, or the number of lines
when no line matches. -/
def findCutOff : List String → Nat
  | [] => 0
  | l :: rest => if isMarkerLine l then 0 else findCutOff rest + 1

/-- Stripped line starting with `>` (a quoted line). -/
def startsWithGt (l : String) : Bool :=
  match (pyStrip l).toList with
  | '>' :: _ => true
  | _ => false

/-- `last_non_quote`: greatest index whose stripped line does not start
with `>`; `none` models the sentinel `-1`. -/
def lastNonQuote : List String → Option Nat
  | [] => none
  | l :: rest =>
    match lastNonQuote rest with
    | some i => some (i + 1)
    | none => if startsWithGt l then none else some 0

/-- `part["body"]` of a Gmail message part; `data := none` models an
absent `data` key. -/
structure GmailBody where
  data : Option String := none
deriving DecidableEq

structure GmailPart where
  mimeType : String
  body : GmailBody := {}
deriving DecidableEq

structure GmailPayload where
  mimeType : String
  parts : Option (List GmailPart) := none
  body : Option GmailBody := none
deriving DecidableEq

/-- The Gmail message object as consumed by `extract_email_content`. -/
structure GmailMessage where
  payload : Option GmailPayload := none
  snippet : Option String := none
deriving DecidableEq

/-- First `text/plain` part that has body data (the loop `break`s on it;
a `text/plain` part without data does not stop the scan). -/
def firstPlainText : List GmailPart → Option String
  | [] => none
  | p :: rest =>
    if p.mimeType = "text/plain" then
      match p.body.data with
      | some d => some d
      | none => firstPlainText rest
    else firstPlainText rest

/-- Final fallback of `extract_email_content`: the snippet if truthy,
otherwise whatever `content` holds. -/
def snippetFallback (message : GmailMessage) (content : String) : String :=
  match message.snippet with
  | some s => if s ≠ "" then s else content
  | none => content

/-- `extract_email_content` (email_webhook.py lines 596-716). -/
def extract_email_content (message : GmailMessage) : String :=
  match message.payload with
  | none => ""
  | some payload =>
    let content :=
      match payload.parts with
      | some parts => (firstPlainText parts).getD ""
      | none => ""
    let content :=
      if content = "" then
        match payload.body with
        | some b =>
          match b.data with
          | some d => if payload.mimeType = "text/plain" then d else content
          | none => content
        | none => content
      else content
    if content ≠ "" then
      let lines := pySplitlines content
      let latest := pyStrip (joinLines (lines.take (findCutOff lines)))
      if latest ≠ "" then latest
      else
        match lastNonQuote lines with
        | some i => pyStrip (joinLines (lines.take (i + 1)))
        | none => snippetFallback message content
    else snippetFallback message content

/-- A single-part `text/plain` message carrying body text `d`. -/
def mkPlainMessage (d : String) : GmailMessage :=
  { payload := some { mimeType := "text/plain", body := some { data := some d } } }

/-! ### Org-id thread backfill (`fetch_recent_email_content`,
email_webhook.py lines 490-545). -/

/-- A message of the fetched thread: its id and its header list.  Headers
are turned into a dict by `{h["name"]: h["value"] for h in ...}`, so for a
repeated name the last occurrence wins — `dictGet` mirrors that. -/
structure ThreadMessage where
  id : String
  headers : List (String × String) := []
deriving DecidableEq

/-- Lookup in the dict built from a header list (last binding wins). -/
def dictGet (hs : List (String × String)) (name : String) : Option String :=
  match hs with
  | [] => none
  | (n, v) :: rest =>
    match dictGet rest name with
    | some r => some r
    | none => if n = name then some v else none

/-- The inner loop over `['X-Org-Id', 'X-Organization-Id', 'X-Org-ID']`:
value of the first accepted header-name variant present. -/
def findOrgIdHeader (hs : List (String × String)) : Option String :=
  match dictGet hs "X-Org-Id" with
  | some v => some v
  | none =>
    match dictGet hs "X-Organization-Id" with
    | some v => some v
    | none => dictGet hs "X-Org-ID"

/-- `is_reply`: the current message has an `In-Reply-To` or `References`
header. -/
def isReplyMessage (hs : List (String × String)) : Bool :=
  (dictGet hs "In-Reply-To").isSome || (dictGet hs "References").isSome

/-- The thread loop: skip the current message by id; on each other message
assign the first present variant's value; `break` only when the resulting
`org_id` is truthy (an empty header value keeps the loop going). -/
def scanThreadForOrgId (message_id : String) :
    Option String → List ThreadMessage → Option String
  | acc, [] => acc
  | acc, m :: rest =>
    if m.id = message_id then scanThreadForOrgId message_id acc rest
    else
      let acc' :=
        match findOrgIdHeader m.headers with
        | some v => some v
        | none => acc
      if pyTruthy? acc' then acc' else scanThreadForOrgId message_id acc' rest

/-- Org-id resolution of `fetch_recent_email_content`: take the header from
the reply itself if truthy; otherwise, when the message is a reply, scan
every other message of the thread. -/
def backfill_org_id (replyHeaders : List (String × String)) (message_id : String)
    (thread : List ThreadMessage) : Option String :=
  let o := findOrgIdHeader replyHeaders
  if !pyTruthy? o && isReplyMessage replyHeaders then
    scanThreadForOrgId message_id o thread
  else o

/-! ### Gmail push-notification processing (email_webhook.py lines 267-387)
and the `/email/push` endpoint (lines 726-798). -/

/-- Python truthiness of an optional number (`historyId`): absent and `0`
are falsy. -/
def pyTruthyNat? (o : Option Nat) : Bool :=
  match o with
  | none => false
  | some n => n ≠ 0

/-- Extraction result dict of `fetch_recent_email_content` (its `headers`
entry, an opaque dict only logged downstream, is not modelled). -/
structure EmailContent where
  from_email : String
  to_email : String
  subject : String
  body : String
  thread_id : String
  message_id : String
  in_reply_to : String := ""
  references : String := ""
  org_id : Option String := none
deriving DecidableEq

/-- The placeholder event built when `fetch_recent_email_content` yields
nothing (email_webhook.py lines 319-336). -/
def gmailPlaceholderEvent (addr : String) (hid now : Nat) : EmailEventWrapper :=
  { project_id := "infis-ai",
    event :=
      { type := "email_reply", event_ts := some (toString now),
        from_email := some addr, to_email := some "",
        subject := some ("Gmail Notification (History ID: " ++ toString hid ++ ")"),
        body := some ("Email notification received for " ++ addr
          ++ " with history ID " ++ toString hid
          ++ ". Gmail API content fetch failed, using placeholder."),
        thread_id := some (toString hid),
        message_id := some ("gmail-" ++ toString hid ++ "-" ++ toString now),
        in_reply_to := some "" },
    type := "email_callback",
    event_id := "gmail-" ++ toString hid ++ "-" ++ toString now,
    event_time := now }

/-- `process_gmail_notification`.  `fetch` is the outcome of the
`fetch_recent_email_content` call (`none` covering a mail-provider fetch
failure, a non-reply latest message, or unextractable content — the inner
`try` maps a raised fetch exception to `None` too).  `pyHash` keeps
Python's process-seeded `hash` abstract.  Both `EmailEventWrapper`
constructions supply every required field with the right type, so the
pydantic validations always succeed. -/
def process_gmail_notification (pyHash : String → Nat)
    (emailAddress? : Option String) (historyId? : Option Nat)
    (fetch : Option EmailContent) (now : Nat) : Option EmailEventWrapper :=
  if !pyTruthy? emailAddress? || !pyTruthyNat? historyId? then none
  else
    let addr := emailAddress?.getD ""
    let hid := historyId?.getD 0
    match fetch with
    | none => some (gmailPlaceholderEvent addr hid now)
    | some c =>
      some
        { project_id := "infis-ai",
          event :=
            { type := "email_reply", event_ts := some (toString now),
              from_email := some c.from_email, to_email := some c.to_email,
              subject := some c.subject, body := some c.body,
              thread_id := some c.thread_id, message_id := some c.message_id,
              in_reply_to := some c.in_reply_to,
              references := some c.references, org_id := c.org_id },
          type := "email_callback",
          event_id := "Em" ++ toString now
            ++ toString (pyHash c.message_id % 1000000),
          event_time := now }

/-- Response of the `/email/push` endpoint. -/
structure PushResponse where
  httpStatus : Nat
  status : Option String := none
  processed : Option Bool := none
  message_id : Option String := none
  error_code : Option String := none
deriving DecidableEq

/-- `/email/push` from the decoded Pub/Sub data onward.  `publishOk`/`mid`
model the broker publish outcome inside `publish_email_event` (a raised
publish error reaches the outer handler as a 500).  The
`isinstance(..., EmailEventWrapper)` and `hasattr(..., 'emailAddress')`
guards are dead: the processed value is always an `EmailEventWrapper`,
which has no such attributes.  The second component lists the events
successfully republished to the broker. -/
def email_push_subscription (pyHash : String → Nat)
    (emailAddress? : Option String) (historyId? : Option Nat)
    (fetch : Option EmailContent) (now : Nat) (publishOk : Bool) (mid : String) :
    PushResponse × List EmailEventWrapper :=
  match process_gmail_notification pyHash emailAddress? historyId? fetch now with
  | some ev =>
    if publishOk then
      ({ httpStatus := 200, status := some "ok", processed := some true,
         message_id := some mid }, [ev])
    else
      ({ httpStatus := 500, error_code := some "PUSH_HANDLER_ERROR" }, [])
  | none =>
    ({ httpStatus := 200, status := some "ok", processed := some false }, [])

/-! ### Pub/Sub service (app/services/pubsub.py): topic provisioning
(lines 73-107) and message publish (lines 109-164).  Broker replies are
modelled as outcome parameters; the observable broker interactions of a
call are recorded in `PubSubState` logs. -/

inductive CreateTopicOutcome
  | success
  | alreadyExists
  | permissionDenied
  | otherError
deriving DecidableEq

inductive BrokerPublishOutcome
  | ok (message_id : String)
  | deadlineExceeded
  | serviceUnavailable
  | permissionDenied
  | invalidArgument
deriving DecidableEq

/-- Result dict of `create_topic_if_not_exists`. -/
structure TopicInfo where
  topic_path : String
  topic_id : String
  created : Bool
  name : String
deriving DecidableEq

/-- A raised `EventsHandlerException` subclass, by its `error_code`. -/
structure ServiceError where
  error_code : String
deriving DecidableEq

/-- Result dict of `publish_message`. -/
structure PublishResult where
  message_id : String
  topic_path : String
  topic_id : String
  success : Bool
deriving DecidableEq

/-- Process-wide observable broker interactions: every `create_topic`
call and every `publisher.publish` attempt issued, in order. -/
structure PubSubState where
  brokerCreateCalls : List String := []
  publishAttempts : List String := []
deriving DecidableEq

/-- `publisher.topic_path(project_id, topic_id)`. -/
def topicPath (projectId topic_id : String) : String :=
  "projects/" ++ projectId ++ "/topics/" ++ topic_id

/-- `create_topic_if_not_exists`: it consults no cache — every call issues
the broker `create_topic` request; `AlreadyExists` is the expected
non-failure outcome resolving the existing handle; permission and other
errors raise `TopicCreationException`. -/
def create_topic_if_not_exists (projectId : String) (st : PubSubState)
    (topic_id : String) (outcome : CreateTopicOutcome) :
    PubSubState × Except ServiceError TopicInfo :=
  let path := topicPath projectId topic_id
  let st' := { st with brokerCreateCalls := st.brokerCreateCalls ++ [topic_id] }
  match outcome with
  | .success =>
    (st', .ok { topic_path := path, topic_id := topic_id, created := true,
                name := path })
  | .alreadyExists =>
    (st', .ok { topic_path := path, topic_id := topic_id, created := false,
                name := path })
  | .permissionDenied => (st', .error { error_code := "PERMISSION_DENIED" })
  | .otherError => (st', .error { error_code := "TOPIC_CREATION_ERROR" })

/-- `publish_message`: ensures the topic (another broker create call), then
issues exactly one broker publish attempt; a `Retry` object is constructed
in the source but never passed to the publish call, and the enclosing
`except` wraps every failure — transient or permanent alike — into a
single immediate `MessagePublishException`. -/
def publish_message (projectId : String) (st : PubSubState) (topic_id : String)
    (createOutcome : CreateTopicOutcome) (outcome : BrokerPublishOutcome) :
    PubSubState × Except ServiceError PublishResult :=
  let path := topicPath projectId topic_id
  let (st', ensured) := create_topic_if_not_exists projectId st topic_id createOutcome
  match ensured with
  | .error _ => (st', .error { error_code := "MESSAGE_PUBLISH_ERROR" })
  | .ok _ =>
    let st'' := { st' with publishAttempts := st'.publishAttempts ++ [path] }
    match outcome with
    | .ok mid =>
      (st'', .ok { message_id := mid, topic_path := path, topic_id := topic_id,
                   success := true })
    | _ => (st'', .error { error_code := "MESSAGE_PUBLISH_ERROR" })

end EventsHandler

namespace EventsHandler

/-- C2 counterexample: a well-formed Gmail notification whose mail-provider
fetch yields nothing does not produce `None`: a placeholder event is
returned, and the `/email/push` endpoint publishes it and answers
`processed=true`. -/
theorem fetch_failure_still_publishes :
    process_gmail_notification (fun _ => 0) (some "user@example.com") (some 123)
        none 1000 ≠ none ∧
    (email_push_subscription (fun _ => 0) (some "user@example.com") (some 123)
        none 1000 true "m1").1.processed = some true ∧
    (email_push_subscription (fun _ => 0) (some "user@example.com") (some 123)
        none 1000 true "m1").2 ≠ [] := by
  decide

/-- C2 amended: a fetch that fails, returns a non-reply or yields no
content (`fetch = none`) makes `process_gmail_notification` return the
placeholder event, which `/email/push` publishes with `processed=true`;
the result is `None` — and the endpoint a 200 no-op with `processed=false`
and no publish — only when `emailAddress` or `historyId` is missing or
falsy. -/
theorem fetch_failure_yields_placeholder (pyHash : String → Nat)
    (addr : String) (hid now : Nat) (publishOk : Bool) (mid : String)
    (fetch : Option EmailContent) (ha : addr ≠ "") (hh : hid ≠ 0) :
    process_gmail_notification pyHash (some addr) (some hid) none now
        = some (gmailPlaceholderEvent addr hid now) ∧
    email_push_subscription pyHash (some addr) (some hid) none now true mid
        = ({ httpStatus := 200, status := some "ok", processed := some true,
             message_id := some mid }, [gmailPlaceholderEvent addr hid now]) ∧
    (∀ historyId? : Option Nat,
        process_gmail_notification pyHash none historyId? fetch now = none) ∧
    process_gmail_notification pyHash (some addr) (some 0) fetch now = none ∧
    (∀ (emailAddress? : Option String) (historyId? : Option Nat),
        process_gmail_notification pyHash emailAddress? historyId? fetch now = none →
        email_push_subscription pyHash emailAddress? historyId? fetch now publishOk mid
          = ({ httpStatus := 200, status := some "ok",
               processed := some false }, [])) := by
  have h1 : process_gmail_notification pyHash (some addr) (some hid) none now
      = some (gmailPlaceholderEvent addr hid now) := by
    simp [process_gmail_notification, pyTruthy?, pyTruthyNat?, ha, hh]
  refine ⟨h1, ?_, ?_, ?_, ?_⟩
  · simp [email_push_subscription, h1]
  · intro historyId?
    simp [process_gmail_notification, pyTruthy?]
  · simp [process_gmail_notification, pyTruthyNat?]
  · intro emailAddress? historyId? h
    simp [email_push_subscription, h]

theorem fetch_failure_yields_placeholder_witness :
    process_gmail_notification (fun _ => 0) (some "u@x") (some 5) none 7
      = some (gmailPlaceholderEvent "u@x" 5 7) :=
  (fetch_failure_yields_placeholder (fun _ => 0) "u@x" 5 7 true "m" none
    (by decide) (by decide)).1

/-- C3 counterexample: after a first successful provisioning of a topic, a
second `create_topic_if_not_exists` call for the very same topic id issues
a second broker create call — there is no process-wide cache that would
short-circuit it. -/
theorem topic_provisioning_not_cached :
    ((create_topic_if_not_exists "p"
        (create_topic_if_not_exists "p" {} "slack-reply-event" .success).1
        "slack-reply-event" .alreadyExists).1).brokerCreateCalls
      = ["slack-reply-event", "slack-reply-event"] ∧
    (create_topic_if_not_exists "p" {} "slack-reply-event" .success).2.isOk = true ∧
    (create_topic_if_not_exists "p"
        (create_topic_if_not_exists "p" {} "slack-reply-event" .success).1
        "slack-reply-event" .alreadyExists).2.isOk = true := by
  decide

/-- C3 amended: `create_topic_if_not_exists` maintains no cache — every
call, repeated topic id or not, performs exactly one broker create call;
"already exists" resolves the existing handle (`created = false`) as a
success, a fresh creation succeeds with `created = true`, and permission
or other broker errors raise `TopicCreationException`. -/
theorem topic_provisioning_always_calls_broker (projectId : String)
    (st : PubSubState) (topic_id : String) :
    (∀ outcome : CreateTopicOutcome,
      ((create_topic_if_not_exists projectId st topic_id outcome).1).brokerCreateCalls
        = st.brokerCreateCalls ++ [topic_id]) ∧
    create_topic_if_not_exists projectId st topic_id .alreadyExists
      = ({ st with brokerCreateCalls := st.brokerCreateCalls ++ [topic_id] },
         .ok { topic_path := topicPath projectId topic_id, topic_id := topic_id,
               created := false, name := topicPath projectId topic_id }) ∧
    create_topic_if_not_exists projectId st topic_id .success
      = ({ st with brokerCreateCalls := st.brokerCreateCalls ++ [topic_id] },
         .ok { topic_path := topicPath projectId topic_id, topic_id := topic_id,
               created := true, name := topicPath projectId topic_id }) ∧
    create_topic_if_not_exists projectId st topic_id .permissionDenied
      = ({ st with brokerCreateCalls := st.brokerCreateCalls ++ [topic_id] },
         .error { error_code := "PERMISSION_DENIED" }) := by
  refine ⟨?_, rfl, rfl, rfl⟩
  intro outcome
  cases outcome <;> rfl

/-- C4 counterexample: a transient broker failure (deadline exceeded) on
publish is not retried: exactly one publish attempt is made and the call
fails immediately with `MessagePublishException`. -/
theorem transient_publish_failure_not_retried :
    ((publish_message "p" {} "t" .success .deadlineExceeded).1).publishAttempts
      = [topicPath "p" "t"] ∧
    (publish_message "p" {} "t" .success .deadlineExceeded).2
      = .error { error_code := "MESSAGE_PUBLISH_ERROR" } :=
  ⟨rfl, rfl⟩

/-- C4 amended: `publish_message` makes exactly one broker publish attempt
per call; every broker failure — transient (deadline exceeded, service
unavailable) and permanent (permission denied, invalid argument) alike —
fails the call immediately as `MessagePublishException`
(`MESSAGE_PUBLISH_ERROR`) with no retry or backoff, and a successful
attempt returns the broker message id. -/
theorem publish_single_attempt_no_retry (projectId : String) (st : PubSubState)
    (topic_id mid : String) :
    (∀ outcome : BrokerPublishOutcome,
      ((publish_message projectId st topic_id .success outcome).1).publishAttempts
        = st.publishAttempts ++ [topicPath projectId topic_id]) ∧
    (∀ outcome : BrokerPublishOutcome, (∀ mid' : String, outcome ≠ .ok mid') →
      (publish_message projectId st topic_id .success outcome).2
        = .error { error_code := "MESSAGE_PUBLISH_ERROR" }) ∧
    (publish_message projectId st topic_id .success (.ok mid)).2
      = .ok { message_id := mid, topic_path := topicPath projectId topic_id,
              topic_id := topic_id, success := true } ∧
    (publish_message projectId st topic_id .permissionDenied (.ok mid)).2
      = .error { error_code := "MESSAGE_PUBLISH_ERROR" } := by
  refine ⟨?_, ?_, rfl, rfl⟩
  · intro outcome
    cases outcome <;> rfl
  · intro outcome h
    cases outcome with
    | ok m => exact absurd rfl (h m)
    | deadlineExceeded => rfl
    | serviceUnavailable => rfl
    | permissionDenied => rfl
    | invalidArgument => rfl

theorem publish_single_attempt_no_retry_witness :
    (publish_message "p" {} "t" .success .deadlineExceeded).2
      = .error { error_code := "MESSAGE_PUBLISH_ERROR" } :=
  (publish_single_attempt_no_retry "p" {} "t" "m").2.1 .deadlineExceeded
    (fun _ h => BrokerPublishOutcome.noConfusion h)

end EventsHandler

namespace EventsHandler

/-- C5: a timestamp more than 300 s away from `now` is rejected no matter
what digest is supplied, and a missing timestamp or signature header is
rejected. -/
theorem stale_or_missing_header_rejected (hmacHex : String → String → String)
    (now : ℚ) (ts sig body secret : String) (t : ℚ)
    (hp : parseDecimal? ts = some t) (hfar : |now - t| > 300) :
    verify_slack_signature hmacHex now (some ts) (some sig) body secret = false ∧
    (∀ sig? : Option String,
      verify_slack_signature hmacHex now none sig? body secret = false) ∧
    (∀ ts? : Option String,
      verify_slack_signature hmacHex now ts? none body secret = false) := by
  refine ⟨?_, ?_, ?_⟩
  · have h5 : (60 : ℚ) * 5 < |now - t| := by linarith
    unfold verify_slack_signature verify_slack_signature_try
    by_cases h0 : (!pyTruthy? (some ts) || !pyTruthy? (some sig)) = true
    · rw [if_pos h0]
    · rw [if_neg h0]
      simp only [Option.getD_some]
      rw [hp]
      simp [h5]
  · intro sig?
    unfold verify_slack_signature verify_slack_signature_try
    simp [pyTruthy?]
  · intro ts?
    unfold verify_slack_signature verify_slack_signature_try
    cases ts? <;> simp [pyTruthy?]

theorem stale_or_missing_header_rejected_witness :
    verify_slack_signature (fun _ _ => "d") 1000 (some "100") (some "v0=d") "b" "k"
      = false := by
  have h := stale_or_missing_header_rejected (fun _ _ => "d") 1000 "100" "v0=d"
    "b" "k" 100 (by rfl) (by norm_num)
  exact h.1

/-- C9: `verify_slack_signature` catches every exception of its try-block
and returns `False`; in particular a non-numeric timestamp header (where
`float(timestamp)` raises) yields `False`, never a propagated error. -/
theorem verify_total_on_bad_timestamp (hmacHex : String → String → String)
    (now : ℚ) (timestamp? signature? : Option String) (body secret : String)
    (ts : String) (hbad : parseDecimal? ts = none) :
    ((verify_slack_signature_try hmacHex now timestamp? signature? body secret).isOk
        = false →
      verify_slack_signature hmacHex now timestamp? signature? body secret = false) ∧
    verify_slack_signature hmacHex now (some ts) (some "v0=x") body secret = false := by
  constructor
  · intro h
    unfold verify_slack_signature
    cases hres : verify_slack_signature_try hmacHex now timestamp? signature? body secret with
    | ok b => rw [hres] at h; simp [Except.isOk, Except.toBool] at h
    | error e => rfl
  · unfold verify_slack_signature verify_slack_signature_try
    by_cases h0 : ts = ""
    · subst h0; simp [pyTruthy?]
    · have h1 : (!pyTruthy? (some ts) || !pyTruthy? (some "v0=x")) = false := by
        simp [pyTruthy?, h0]
      rw [if_neg (by simp [h1])]
      simp only [Option.getD_some]
      rw [hbad]

theorem verify_total_on_bad_timestamp_witness :
    verify_slack_signature (fun _ _ => "d") 0 (some "not-a-number") (some "v0=x")
      "b" "k" = false := by
  have h := verify_total_on_bad_timestamp (fun _ _ => "d") 0 (some "not-a-number")
    (some "v0=x") "b" "k" "not-a-number" (by rfl)
  exact h.2

/-- C7 counterexample: an email-webhook `url_verification` payload that does
carry a challenge value but no `token` is answered 400 `INVALID_CHALLENGE`
(the `EmailChallenge` model requires `token`), not a 200 echo as claimed. -/
theorem challenge_without_token_not_echoed :
    (email_webhook_handle
        { ptype := some "url_verification", challenge := some "abc" }).1.httpStatus
        = 400 ∧
    (email_webhook_handle
        { ptype := some "url_verification", challenge := some "abc" }).1.error_code
        = some "INVALID_CHALLENGE" ∧
    (email_webhook_handle
        { ptype := some "url_verification", challenge := some "abc" }).2 = [] := by
  decide

/-- C7 amended: a Slack `url_verification` payload with a non-empty
challenge is answered 200/"ok" echoing the challenge unchanged with no
publish; an email `url_verification` payload that carries both `token` and
`challenge` is answered 200/"ok" echoing the challenge unchanged with no
publish. -/
theorem challenge_echoed_exactly (p : SlackRawPayload) (q : EmailRawPayload)
    (c tok ch : String)
    (hps : p.ptype = some "url_verification") (hc : p.challenge = some c)
    (hne : c ≠ "")
    (hq : q.ptype = some "url_verification") (ht : q.token = some tok)
    (hch : q.challenge = some ch) :
    slack_webhook_handle p
        = (okResponse (some "URL verification challenge") (some c), []) ∧
    email_webhook_handle q = (okResponse none (some ch), []) := by
  constructor
  · unfold slack_webhook_handle
    rw [hps, if_pos rfl, hc]
    have htr : pyTruthy? (some c) = true := by simp [pyTruthy?, hne]
    simp [htr]
  · unfold email_webhook_handle
    rw [hq, if_pos rfl, ht, hch]

theorem challenge_echoed_exactly_witness :
    slack_webhook_handle { ptype := some "url_verification", challenge := some "tok123" }
        = (okResponse (some "URL verification challenge") (some "tok123"), []) ∧
    email_webhook_handle
        { ptype := some "url_verification", token := some "t", challenge := some "xyz" }
        = (okResponse none (some "xyz"), []) :=
  challenge_echoed_exactly
    { ptype := some "url_verification", challenge := some "tok123" }
    { ptype := some "url_verification", token := some "t", challenge := some "xyz" }
    "tok123" "t" "xyz" rfl rfl (by decide) rfl rfl rfl

/-- C8 failing input: an `event_callback` whose event is a `message` with a
`subtype` (an edit, not a user message), a non-empty text and no bot/app id.
The pydantic `SlackEvent` model declares no `subtype` field, so
`hasattr(event_wrapper.event, 'subtype')` is always `False`, the subtype
skip branch is dead, and the event is queued for background publishing
instead of being skipped. -/
theorem subtype_message_still_published :
    (slack_webhook_handle
        { ptype := some "event_callback", token := some "tk",
          team_id := some "T1", api_app_id := some "A1",
          event := some { type := some "message",
                          subtype := some "message_changed",
                          text := some "edited text",
                          channel := some "C1", user := some "U1" },
          event_id := some "Ev1", event_time := some 1 }).2.length = 1 ∧
    (slack_webhook_handle
        { ptype := some "event_callback", token := some "tk",
          team_id := some "T1", api_app_id := some "A1",
          event := some { type := some "message",
                          subtype := some "message_changed",
                          text := some "edited text",
                          channel := some "C1", user := some "U1" },
          event_id := some "Ev1", event_time := some 1 }).1
      = okResponse (some "Slack event received and queued for processing") none := by
  decide

/-- C10: a Slack `url_verification` payload whose challenge is absent or
empty is answered 400 with error code `MISSING_CHALLENGE` and no publish,
instead of a 200 echo. -/
theorem missing_challenge_rejected (p : SlackRawPayload)
    (hp : p.ptype = some "url_verification")
    (hc : p.challenge = none ∨ p.challenge = some "") :
    slack_webhook_handle p = (errorResponse 400 "MISSING_CHALLENGE", []) := by
  unfold slack_webhook_handle
  rw [hp, if_pos rfl]
  rcases hc with h | h <;> rw [h] <;> simp [pyTruthy?]

theorem missing_challenge_rejected_witness :
    slack_webhook_handle { ptype := some "url_verification" }
      = (errorResponse 400 "MISSING_CHALLENGE", []) :=
  missing_challenge_rejected { ptype := some "url_verification" } rfl (Or.inl rfl)

/-- No marker line means the cut-off index is the number of lines. -/
theorem findCutOff_eq_length (lines : List String)
    (h : ∀ l ∈ lines, isMarkerLine l = false) :
    findCutOff lines = lines.length := by
  induction lines with
  | nil => rfl
  | cons l rest ih =>
    unfold findCutOff
    rw [if_neg (by simp [h l (List.mem_cons_self l rest)])]
    rw [ih fun x hx => h x (List.mem_cons_of_mem l hx)]
    simp

/-- Unfolding of `extract_email_content` on a single-part plain-text
message with non-empty body. -/
theorem extract_plain_eq (d : String) (hd : d ≠ "") :
    extract_email_content (mkPlainMessage d) =
      (let lines := pySplitlines d
       let latest := pyStrip (joinLines (lines.take (findCutOff lines)))
       if latest ≠ "" then latest
       else
         match lastNonQuote lines with
         | some i => pyStrip (joinLines (lines.take (i + 1)))
         | none => d) := by
  unfold extract_email_content mkPlainMessage snippetFallback
  simp [hd]

/-- C1 counterexample: a plain-text body of one unquoted line followed by
one `>`-quoted line and no attribution/forward marker.  Extraction returns
the whole body, quoted line included, not the leading unquoted line only. -/
theorem quoted_text_kept_when_no_marker :
    extract_email_content (mkPlainMessage "Hello\n> quoted line")
        = "Hello\n> quoted line" ∧
    extract_email_content (mkPlainMessage "Hello\n> quoted line") ≠ "Hello" := by
  decide

/-- C1 amended: with no marker line and non-blank content the extraction
returns the strip of *all* lines, `>`-quoted ones included; the
`>`-line-stripping fallback only fires when the text before the first
marker is empty (e.g. the marker is the first line), in which case the
lines up to the last non-`>` line are returned. -/
theorem extraction_keeps_quotes_without_marker :
    (∀ d : String, (∀ l ∈ pySplitlines d, isMarkerLine l = false) →
        pyStrip (joinLines (pySplitlines d)) ≠ "" →
        extract_email_content (mkPlainMessage d)
          = pyStrip (joinLines (pySplitlines d))) ∧
    (∀ d : String, ∀ i : Nat, findCutOff (pySplitlines d) = 0 →
        lastNonQuote (pySplitlines d) = some i →
        extract_email_content (mkPlainMessage d)
          = pyStrip (joinLines ((pySplitlines d).take (i + 1)))) := by
  constructor
  · intro d hnm hne
    have hd : d ≠ "" := by
      intro h0
      subst h0
      exact hne rfl
    rw [extract_plain_eq d hd]
    simp only [findCutOff_eq_length (pySplitlines d) hnm, List.take_length]
    rw [if_pos hne]
  · intro d i hcut hlast
    have hd : d ≠ "" := by
      intro h0
      subst h0
      exact Option.noConfusion hlast
    rw [extract_plain_eq d hd]
    have hempty : pyStrip (joinLines ((pySplitlines d).take
        (findCutOff (pySplitlines d)))) = "" := by
      rw [hcut]
      rfl
    rw [if_neg (by simp [hempty]), hlast]

theorem extraction_keeps_quotes_without_marker_witness :
    extract_email_content (mkPlainMessage "Hi there\n> old text")
        = "Hi there\n> old text" ∧
    extract_email_content (mkPlainMessage "On Mon, Jan 1 wrote:\n> old text")
        = "On Mon, Jan 1 wrote:" := by
  constructor
  · have h := extraction_keeps_quotes_without_marker.1 "Hi there\n> old text"
      (by decide) (by decide)
    rw [h]
    decide
  · have h := extraction_keeps_quotes_without_marker.2 "On Mon, Jan 1 wrote:\n> old text"
      0 (by decide) (by decide)
    rw [h]
    decide

/-- Thread messages that are the current message or carry no accepted
variant leave the (falsy) accumulator untouched. -/
theorem scanThread_skip (mid : String) (rest : List ThreadMessage) :
    ∀ l : List ThreadMessage,
      (∀ x ∈ l, x.id = mid ∨ findOrgIdHeader x.headers = none) →
      scanThreadForOrgId mid none (l ++ rest) = scanThreadForOrgId mid none rest
  | [], _ => rfl
  | x :: xs, h => by
    have ih := scanThread_skip mid rest xs fun y hy => h y (List.mem_cons_of_mem x hy)
    by_cases hid : x.id = mid
    · simp only [List.cons_append, scanThreadForOrgId, hid, if_true]
      exact ih
    · rcases h x (List.mem_cons_self x xs) with hx | hx
      · exact absurd hx hid
      · simp only [List.cons_append, scanThreadForOrgId, hx, if_neg hid]
        simpa [pyTruthy?] using ih

/-- First other message with a truthy accepted variant wins the scan. -/
theorem backfill_first_match_core (replyHeaders : List (String × String))
    (mid : String) (pre post : List ThreadMessage) (m : ThreadMessage) (v : String)
    (h0 : findOrgIdHeader replyHeaders = none)
    (hr : isReplyMessage replyHeaders = true)
    (hpre : ∀ x ∈ pre, x.id = mid ∨ findOrgIdHeader x.headers = none)
    (hm : ¬ m.id = mid) (hv : findOrgIdHeader m.headers = some v)
    (hne : v ≠ "") :
    backfill_org_id replyHeaders mid (pre ++ m :: post) = some v := by
  unfold backfill_org_id
  simp only [h0, hr, pyTruthy?, Bool.not_false, Bool.and_true, if_true]
  rw [scanThread_skip mid (m :: post) pre hpre]
  simp only [scanThreadForOrgId, hv, if_neg hm]
  simp [pyTruthy?, hne]

/-- C6: with no accepted tenant header on the reply itself, the thread scan
takes the first match in thread order excluding the current message — in
particular a thread whose only other message carries `X-Org-Id: acme-42`
yields `some "acme-42"` — and yields `none` when no thread message carries
any accepted variant. -/
theorem org_id_backfill_first_match :
    (∀ (replyHeaders : List (String × String)) (mid : String)
        (pre post : List ThreadMessage) (m : ThreadMessage),
        findOrgIdHeader replyHeaders = none →
        isReplyMessage replyHeaders = true →
        (∀ x ∈ pre, x.id = mid) →
        ¬ m.id = mid →
        dictGet m.headers "X-Org-Id" = some "acme-42" →
        backfill_org_id replyHeaders mid (pre ++ m :: post) = some "acme-42") ∧
    (∀ (replyHeaders : List (String × String)) (mid : String)
        (pre post : List ThreadMessage) (m : ThreadMessage) (v : String),
        findOrgIdHeader replyHeaders = none →
        isReplyMessage replyHeaders = true →
        (∀ x ∈ pre, x.id = mid ∨ findOrgIdHeader x.headers = none) →
        ¬ m.id = mid →
        findOrgIdHeader m.headers = some v → v ≠ "" →
        backfill_org_id replyHeaders mid (pre ++ m :: post) = some v) ∧
    (∀ (replyHeaders : List (String × String)) (mid : String)
        (thread : List ThreadMessage),
        findOrgIdHeader replyHeaders = none →
        (∀ x ∈ thread, findOrgIdHeader x.headers = none) →
        backfill_org_id replyHeaders mid thread = none) := by
  refine ⟨?_, ?_, ?_⟩
  · intro replyHeaders mid pre post m h0 hr hpre hm hx
    exact backfill_first_match_core replyHeaders mid pre post m "acme-42" h0 hr
      (fun x hxm => Or.inl (hpre x hxm)) hm
      (by unfold findOrgIdHeader; rw [hx]) (by decide)
  · intro replyHeaders mid pre post m v h0 hr hpre hm hv hne
    exact backfill_first_match_core replyHeaders mid pre post m v h0 hr hpre hm hv hne
  · intro replyHeaders mid thread h0 hall
    unfold backfill_org_id
    simp only [h0, pyTruthy?, Bool.not_false, Bool.and_true]
    by_cases hr : isReplyMessage replyHeaders
    · rw [if_pos (by simp [hr])]
      have := scanThread_skip mid [] thread fun x hx => Or.inr (hall x hx)
      simpa using this
    · rw [if_neg (by simp [hr])]

theorem org_id_backfill_first_match_witness :
    backfill_org_id [("In-Reply-To", "<m0@x>")] "m1"
        [{ id := "m1" }, { id := "m2", headers := [("X-Org-Id", "acme-42")] }]
      = some "acme-42" := by
  have h := org_id_backfill_first_match.1 [("In-Reply-To", "<m0@x>")] "m1"
    [{ id := "m1" }] [] { id := "m2", headers := [("X-Org-Id", "acme-42")] }
    (by decide) (by decide) (by decide) (by decide) (by decide)
  exact h

end EventsHandler
